import Mathlib

/-!
Verification development for the cl-phone voice gateway.

The repository bridges a Twilio media-stream WebSocket to the OpenAI
realtime voice API, routes tool calls to backing lookups, swaps the
active agent persona mid-call, and gates inbound caller audio while the
assistant is speaking.  The definitions below are shallow embeddings of
the JavaScript source:

* the raw-WebSocket bridge of `src/server.js` (the revision spanning the
  `openaiWs.on(open)`, `twilioWs.on(message)`, `openaiWs.on(message)`,
  `handleToolCall` and `handleHandoff` handlers);
* the multi-agent hand-off controller and navigation tools of
  `src/unnamed/part_002` (the `transferToPickup` / `transferToItems` /
  `transferToSheitel` / `transferToRouter` tools with their replay
  timers, and the `source=ivr_rebbi` branch);
* the `get_pickup_times` and `get_item_info` tool implementations of
  `src/unnamed/part_002` together with their helpers
  (`normalizeLocation`, `getPickupTimes`, `getItemRecords`,
  `formatSpokenDate`, `formatTime24To12`).

JavaScript idioms are modelled explicitly: `a || b` on strings is
`jsOr` (empty string and absent value are falsy), absent object fields
are `Option`, and `URLSearchParams.set` is `setParam`.
-/

/-- JavaScript `a || dflt` for a possibly absent string: an absent value
and the empty string are falsy and fall through to the default. -/
def jsOr (a : Option String) (dflt : String) : String :=
  match a with
  | some s => if s == "" then dflt else s
  | none => dflt

/-- JavaScript `s || dflt` for a plain string operand. -/
def jsOrS (s dflt : String) : String :=
  if s == "" then dflt else s

/-- JavaScript truthiness of a possibly absent string. -/
def jsTruthyOpt (o : Option String) : Bool :=
  match o with
  | some s => s != ""
  | none => false

/-- A call of `speakAnswer` from `answers.js`.  Modelled from the spec:
`answers.js` is not under `src/`; per the spec it deterministically
renders a spoken-text string from a response template keyed by outcome
category, substituting the named parameters.  We therefore represent a
spoken text symbolically by the template key and the named parameters
passed to the renderer; rendering being deterministic, two spoken texts
agree exactly when their invocations do. -/
structure SpeakCall where
  key : String
  params : List (String × String)
deriving DecidableEq, Repr

/-- Value of a named template parameter, empty if the key is absent. -/
def getParam (ps : List (String × String)) (k : String) : String :=
  match ps.find? (fun kv => kv.1 == k) with
  | some kv => kv.2
  | none => ""

/-- Whether a named template parameter is present at all. -/
def hasParam (ps : List (String × String)) (k : String) : Bool :=
  ps.any (fun kv => kv.1 == k)

/-! ## The raw-WebSocket bridge of `src/server.js`

State and event handlers of the final revision in `src/server.js`: one
Twilio WebSocket, one OpenAI realtime WebSocket, the
`isAssistantSpeaking` gate flag, the `currentAgent` slug, and the
`handleHandoff` / `handleToolCall` helpers. -/

/-- A tool (function) definition as pushed inside a `session.update`
event: its name, description and required parameter names. -/
structure ToolDef where
  name : String
  description : String
  required : List String
deriving DecidableEq, Repr

/-- The `determine_route` tool pushed for the router agent. -/
def determineRouteTool : ToolDef :=
  { name := "determine_route"
    description := "Classify caller intent"
    required := ["message", "ai_classification"] }

/-- The `search_items` tool pushed for the items agent. -/
def searchItemsTool : ToolDef :=
  { name := "search_items"
    description := "Search for Chasdei Lev items"
    required := ["query"] }

/-- Messages the bridge sends on the upstream (OpenAI) WebSocket. -/
inductive UpMsg where
  | sessionUpdate (instructions : String) (tools : List ToolDef)
  | itemCreate (text : String)
  | responseCreate
  | audioAppend (payload : String)
  | funcOutput (output : String)
deriving DecidableEq, Repr

/-- Messages the bridge sends back on the Twilio WebSocket. -/
inductive DownMsg where
  | media (payload : String)
deriving DecidableEq, Repr

/-- The `PROMPTS` cache of the bridge revision: router and items system
prompts loaded from the database (possibly still empty strings). -/
structure Prompts where
  router : String
  items : String
deriving DecidableEq, Repr

/-- Default router instructions used when the cache is empty
(`PROMPTS.router || ...`). -/
def routerFallbackPrompt : String := "You are the Chasdei Lev router agent."

/-- Default items instructions used when the cache is empty
(`PROMPTS.items || ...`). -/
def itemsFallbackPrompt : String := "You are the Chasdei Lev items agent."

/-- A parsed inbound Twilio frame: `start`, `media`, `stop`, or a frame
whose JSON parse failed (ignored by the handler). -/
inductive TwilioFrame where
  | start (callSid : String)
  | media (payload : String)
  | stop
  | malformed
deriving DecidableEq, Repr

/-- A hand-off object found in a model text delta: `looksLikeHandoff`
requires truthy `intent` and `handoff_from` fields; `question` is the
carried caller context. -/
structure HandoffMsg where
  intent : String
  handoff_from : String
  question : Option String
deriving DecidableEq, Repr

/-- An inbound OpenAI realtime event, as discriminated by the
`openaiWs.on(message)` handler.  A text delta is carried here already
parsed: `outputTextDelta (some h)` is a delta whose text passes
`looksLikeHandoff`, `outputTextDelta none` is any other (or empty)
delta.  `funcArgsDelta` carries the tool name together with the backing
endpoint response that `handleToolCall` forwards. -/
inductive OpenAIEvt where
  | outputAudioDelta (delta : Option String)
  | responseCompleted
  | responseDone
  | outputTextDelta (handoff : Option HandoffMsg)
  | funcArgsDelta (name : String) (endpointResp : String)
  | errorEvt
  | otherEvt
deriving DecidableEq, Repr

/-- One event arriving at the per-call closure: the OpenAI socket
opening, a Twilio frame, or an OpenAI message. -/
inductive BridgeEvt where
  | openaiOpen
  | twilio (f : TwilioFrame)
  | openai (e : OpenAIEvt)
deriving DecidableEq, Repr

/-- Per-call state of the bridge: the `isAssistantSpeaking` gate flag,
the `currentAgent` slug, how many Twilio `start` events were observed,
whether the OpenAI socket was closed, and the messages sent so far on
each leg (upstream in send order). -/
structure BridgeState where
  speaking : Bool
  currentAgent : String
  started : Nat
  upClosed : Bool
  upstream : List UpMsg
  down : List DownMsg
deriving DecidableEq, Repr

/-- Initial per-call state: not speaking, router agent, nothing sent. -/
def initBridge : BridgeState :=
  { speaking := false
    currentAgent := "router"
    started := 0
    upClosed := false
    upstream := []
    down := [] }

/-- The body of `openaiWs.on(open)`: one `session.update` carrying the
router instructions and the `determine_route` tool, then the
`GREETING_TRIGGER` user item, then `response.create`. -/
def onOpenMsgs (p : Prompts) : List UpMsg :=
  [UpMsg.sessionUpdate (jsOrS p.router routerFallbackPrompt) [determineRouteTool],
   UpMsg.itemCreate "GREETING_TRIGGER",
   UpMsg.responseCreate]

/-- Context re-injection after a hand-off: if `h.question` is truthy,
one user item with the question text followed by `response.create`. -/
def handoffCtxMsgs (q : Option String) : List UpMsg :=
  match q with
  | some t => if t == "" then [] else [UpMsg.itemCreate t, UpMsg.responseCreate]
  | none => []

/-- `handleHandoff` of the bridge revision: for intent `items` set
`currentAgent` and push the items instructions together with the
`search_items` tool in a single `session.update`; for intent `router`
likewise with the router configuration; any other intent is ignored.
Returns the new `currentAgent` and the messages sent. -/
def handleHandoff (p : Prompts) (current : String) (h : HandoffMsg) :
    String × List UpMsg :=
  if h.intent == "items" then
    ("items",
      UpMsg.sessionUpdate (jsOrS p.items itemsFallbackPrompt) [searchItemsTool]
        :: handoffCtxMsgs h.question)
  else if h.intent == "router" then
    ("router",
      UpMsg.sessionUpdate (jsOrS p.router routerFallbackPrompt) [determineRouteTool]
        :: handoffCtxMsgs h.question)
  else
    (current, [])

/-- `handleToolCall` of the bridge revision: `determine_route` and
`search_items` each post to their backing endpoint and forward the
response as a `response.function_call_output`; any other name does
nothing. -/
def handleToolCall (name : String) (endpointResp : String) : List UpMsg :=
  if name == "determine_route" then [UpMsg.funcOutput endpointResp]
  else if name == "search_items" then [UpMsg.funcOutput endpointResp]
  else []

/-- One step of the per-call closure, combining the three handlers of
the bridge revision. -/
def bridgeStep (p : Prompts) (s : BridgeState) : BridgeEvt → BridgeState
  | BridgeEvt.openaiOpen =>
      { s with upstream := s.upstream ++ onOpenMsgs p }
  | BridgeEvt.twilio f =>
      match f with
      | TwilioFrame.start _ => { s with started := s.started + 1 }
      | TwilioFrame.media payload =>
          if s.speaking then s
          else { s with upstream := s.upstream ++ [UpMsg.audioAppend payload] }
      | TwilioFrame.stop => { s with upClosed := true }
      | TwilioFrame.malformed => s
  | BridgeEvt.openai e =>
      match e with
      | OpenAIEvt.outputAudioDelta d =>
          { s with
            speaking := true
            down := s.down ++
              (match d with
               | some b => if b == "" then [] else [DownMsg.media b]
               | none => []) }
      | OpenAIEvt.responseCompleted => { s with speaking := false }
      | OpenAIEvt.responseDone => { s with speaking := false }
      | OpenAIEvt.outputTextDelta ho =>
          match ho with
          | some h =>
              let r := handleHandoff p s.currentAgent h
              { s with currentAgent := r.1, upstream := s.upstream ++ r.2 }
          | none => s
      | OpenAIEvt.funcArgsDelta name resp =>
          { s with upstream := s.upstream ++ handleToolCall name resp }
      | OpenAIEvt.errorEvt => s
      | OpenAIEvt.otherEvt => s

/-- Run the per-call closure over a whole event trace. -/
def bridgeRun (p : Prompts) (tr : List BridgeEvt) : BridgeState :=
  tr.foldl (bridgeStep p) initBridge

/-- Whether an upstream message is the greeting trigger item. -/
def isGreetingMsg (m : UpMsg) : Bool :=
  match m with
  | UpMsg.itemCreate t => t == "GREETING_TRIGGER"
  | _ => false

/-- How many greeting triggers were sent upstream. -/
def countGreetings (msgs : List UpMsg) : Nat :=
  msgs.countP isGreetingMsg

/-- Whether an event is the OpenAI socket-open event. -/
def isOpenEvt (e : BridgeEvt) : Bool :=
  match e with
  | BridgeEvt.openaiOpen => true
  | _ => false

/-- How many OpenAI socket-open events a trace contains. -/
def countOpens (tr : List BridgeEvt) : Nat :=
  tr.countP isOpenEvt

/-- Whether an event is a hand-off whose carried question is literally
the greeting trigger text (a degenerate alias excluded when counting
greetings per open event). -/
def handoffInjectsGreeting (e : BridgeEvt) : Bool :=
  match e with
  | BridgeEvt.openai (OpenAIEvt.outputTextDelta (some h)) =>
      (match h.question with
       | some t => t == "GREETING_TRIGGER"
       | none => false)
  | _ => false

/-- Whether an upstream message is a `session.update`. -/
def isSessionUpdateB (m : UpMsg) : Bool :=
  match m with
  | UpMsg.sessionUpdate _ _ => true
  | _ => false

/-- The tool set the bridge installs for an agent slug: the router
exposes `determine_route`, the items agent exposes `search_items`. -/
def agentTools (slug : String) : List ToolDef :=
  if slug == "items" then [searchItemsTool]
  else if slug == "router" then [determineRouteTool]
  else []

/-- The instructions the bridge pushes for an agent slug (the prompt
cache entry, falling back to the built-in default when empty). -/
def effectivePrompt (p : Prompts) (slug : String) : String :=
  if slug == "items" then jsOrS p.items itemsFallbackPrompt
  else jsOrS p.router routerFallbackPrompt

/-- Whether the dispatcher (`handleToolCall`) resolves a tool name. -/
def dispatcherHandles (name : String) : Bool :=
  name == "determine_route" || name == "search_items"

/-- The tool set installed on the upstream connection after a sequence
of sent messages: the tools of the last `session.update`, empty before
any update was sent. -/
def installedAfter (msgs : List UpMsg) : List ToolDef :=
  msgs.foldl
    (fun acc m =>
      match m with
      | UpMsg.sessionUpdate _ ts => ts
      | _ => acc) []

/-- `dispatchSessionUpdate` of the `src/server.js` revision that swaps
personas through the SDK: it builds one `session.update` event holding
both the instructions and the tool list and performs a single send. -/
def dispatchSessionUpdate (instructions : String) (tools : List ToolDef) :
    List UpMsg :=
  [UpMsg.sessionUpdate instructions tools]

/-- Last `session.update` wins: `installedAfter` over an appended
segment is the segment fold seeded with the prefix result. -/
theorem installedAfter_append (xs ys : List UpMsg) :
    installedAfter (xs ++ ys) =
      ys.foldl
        (fun acc m =>
          match m with
          | UpMsg.sessionUpdate _ ts => ts
          | _ => acc) (installedAfter xs) := by
  simp [installedAfter, List.foldl_append]

/-- Greeting counting distributes over appended upstream segments. -/
theorem countGreetings_append (xs ys : List UpMsg) :
    countGreetings (xs ++ ys) = countGreetings xs + countGreetings ys := by
  simp [countGreetings, List.countP_append]

/-- A hand-off context segment never contains a greeting trigger,
provided the carried question is not literally the trigger text. -/
theorem countGreetings_ctx (q : Option String)
    (h : (match q with
          | some t => t == "GREETING_TRIGGER"
          | none => false) = false) :
    countGreetings (handoffCtxMsgs q) = 0 := by
  cases q with
  | none => simp [handoffCtxMsgs, countGreetings]
  | some t =>
      simp only [handoffCtxMsgs]
      by_cases ht : t == ""
      · simp [ht, countGreetings]
      · simp only [ht, if_false]
        simp_all [countGreetings, isGreetingMsg]

/-- A single bridge step adds exactly one greeting trigger on the
socket-open event and none on any other event (excluding the degenerate
hand-off that re-injects the literal trigger text). -/
theorem countGreetings_step (p : Prompts) (s : BridgeState) (e : BridgeEvt)
    (he : handoffInjectsGreeting e = false) :
    countGreetings (bridgeStep p s e).upstream =
      countGreetings s.upstream + (if isOpenEvt e then 1 else 0) := by
  cases e with
  | openaiOpen =>
      simp [bridgeStep, isOpenEvt, countGreetings_append, onOpenMsgs,
        countGreetings, isGreetingMsg]
  | twilio f =>
      cases f with
      | start sid => simp [bridgeStep, isOpenEvt]
      | media payload =>
          by_cases hs : s.speaking
          · simp [bridgeStep, hs, isOpenEvt]
          · simp [bridgeStep, hs, isOpenEvt, countGreetings_append,
              countGreetings, isGreetingMsg]
      | stop => simp [bridgeStep, isOpenEvt]
      | malformed => simp [bridgeStep, isOpenEvt]
  | openai ev =>
      cases ev with
      | outputAudioDelta d => simp [bridgeStep, isOpenEvt]
      | responseCompleted => simp [bridgeStep, isOpenEvt]
      | responseDone => simp [bridgeStep, isOpenEvt]
      | outputTextDelta ho =>
          cases ho with
          | none => simp [bridgeStep, isOpenEvt]
          | some h =>
              have hq : (match h.question with
                         | some t => t == "GREETING_TRIGGER"
                         | none => false) = false := by
                simpa [handoffInjectsGreeting] using he
              have hctx := countGreetings_ctx h.question hq
              have hall : ∀ a ∈ handoffCtxMsgs h.question, ¬ (isGreetingMsg a = true) :=
                List.countP_eq_zero.mp (by simpa [countGreetings] using hctx)
              have h2 : countGreetings (handleHandoff p s.currentAgent h).2 = 0 := by
                unfold handleHandoff
                by_cases hi : h.intent == "items"
                · simp only [hi, if_true]
                  simp only [countGreetings, List.countP_eq_zero]
                  intro a ha
                  rcases List.mem_cons.mp ha with h1 | h1
                  · subst h1; simp [isGreetingMsg]
                  · exact hall a h1
                · by_cases hr : h.intent == "router"
                  · simp only [hi, if_false, hr, if_true]
                    simp only [countGreetings, List.countP_eq_zero]
                    intro a ha
                    rcases List.mem_cons.mp ha with h1 | h1
                    · subst h1; simp [isGreetingMsg]
                    · exact hall a h1
                  · simp [hi, hr, countGreetings]
              show countGreetings
                  (s.upstream ++ (handleHandoff p s.currentAgent h).2) = _
              rw [countGreetings_append, h2]
              simp [isOpenEvt]
      | funcArgsDelta name resp =>
          simp only [bridgeStep, isOpenEvt, countGreetings_append]
          by_cases h1 : name == "determine_route"
          · simp [handleToolCall, h1, countGreetings, isGreetingMsg]
          · by_cases h2 : name == "search_items"
            · simp [handleToolCall, h1, h2, countGreetings, isGreetingMsg]
            · simp [handleToolCall, h1, h2, countGreetings]
      | errorEvt => simp [bridgeStep, isOpenEvt]
      | otherEvt => simp [bridgeStep, isOpenEvt]

/-- Folded form of `countGreetings_step` over a whole trace. -/
theorem countGreetings_foldl (p : Prompts) (tr : List BridgeEvt) :
    ∀ s : BridgeState,
      (∀ e ∈ tr, handoffInjectsGreeting e = false) →
      countGreetings (tr.foldl (bridgeStep p) s).upstream =
        countGreetings s.upstream + countOpens tr := by
  induction tr with
  | nil => intro s _; simp [countOpens]
  | cons e rest ih =>
      intro s hall
      have he : handoffInjectsGreeting e = false := hall e (by simp)
      have hrest : ∀ x ∈ rest, handoffInjectsGreeting x = false := by
        intro x hx; exact hall x (by simp [hx])
      simp only [List.foldl_cons]
      rw [ih (bridgeStep p s e) hrest, countGreetings_step p s e he]
      simp [countOpens, List.countP_cons]
      by_cases ho : isOpenEvt e
      · simp [ho]
        omega
      · simp [ho]

/-- Claim C1, counterexample: starting from a fresh call and processing
only the model leg's connection-open event, the bridge has already sent
the greeting trigger exactly once although the telephony leg's `start`
event was never observed — the greeting is not gated on both readiness
signals. -/
theorem greeting_sent_without_telephony_ready :
    countGreetings (bridgeRun { router := "", items := "" }
        [BridgeEvt.openaiOpen]).upstream = 1 ∧
      (bridgeRun { router := "", items := "" }
        [BridgeEvt.openaiOpen]).started = 0 := by
  constructor <;> rfl

/-- Claim C1 (amended): in every event trace (excluding the degenerate
hand-off whose carried question is literally the greeting trigger
text), the bridge sends the greeting trigger exactly once per
model-connection open event, regardless of whether any telephony
`start` event was observed; consequently, since a WebSocket fires its
open event at most once, the greeting is sent at most once per
session. -/
theorem greeting_fires_per_model_open (p : Prompts) (tr : List BridgeEvt)
    (h : ∀ e ∈ tr, handoffInjectsGreeting e = false) :
    countGreetings (bridgeRun p tr).upstream = countOpens tr ∧
      (countOpens tr ≤ 1 → countGreetings (bridgeRun p tr).upstream ≤ 1) := by
  have hmain : countGreetings (bridgeRun p tr).upstream = countOpens tr := by
    have := countGreetings_foldl p tr initBridge h
    simpa [bridgeRun, initBridge, countGreetings] using this
  exact ⟨hmain, fun hle => hmain ▸ hle⟩

/-- Witness for `greeting_fires_per_model_open` at a concrete trace in
which the telephony `start` precedes the model open. -/
theorem greeting_fires_per_model_open_witness :
    countGreetings (bridgeRun { router := "", items := "" }
        [BridgeEvt.twilio (TwilioFrame.start "CA123"), BridgeEvt.openaiOpen,
         BridgeEvt.twilio (TwilioFrame.media "QUJD")]).upstream =
      countOpens [BridgeEvt.twilio (TwilioFrame.start "CA123"), BridgeEvt.openaiOpen,
         BridgeEvt.twilio (TwilioFrame.media "QUJD")] :=
  (greeting_fires_per_model_open { router := "", items := "" }
    [BridgeEvt.twilio (TwilioFrame.start "CA123"), BridgeEvt.openaiOpen,
     BridgeEvt.twilio (TwilioFrame.media "QUJD")] (by decide)).1

/-- Claim C2: while the gate flag is set an inbound media frame is
dropped outright — the step leaves the whole per-call state unchanged,
so nothing is buffered or queued and nothing is sent upstream; while
the flag is clear the frame's payload is appended upstream unmodified
in the very same step.  The flag is set by an audio-output fragment
(`response.output_audio.delta`) and cleared by the discrete completion
events (`response.completed` / `response.done`). -/
theorem audio_gate_contract (p : Prompts) (s : BridgeState) (payload : String)
    (d : Option String) :
    (s.speaking = true →
      bridgeStep p s (BridgeEvt.twilio (TwilioFrame.media payload)) = s) ∧
    (s.speaking = false →
      bridgeStep p s (BridgeEvt.twilio (TwilioFrame.media payload)) =
        { s with upstream := s.upstream ++ [UpMsg.audioAppend payload] }) ∧
    (bridgeStep p s (BridgeEvt.openai (OpenAIEvt.outputAudioDelta d))).speaking
      = true ∧
    (bridgeStep p s (BridgeEvt.openai OpenAIEvt.responseCompleted)).speaking
      = false ∧
    (bridgeStep p s (BridgeEvt.openai OpenAIEvt.responseDone)).speaking
      = false := by
  refine ⟨fun hs => ?_, fun hs => ?_, ?_, ?_, ?_⟩ <;>
    simp [bridgeStep, *]

/-- Witness for `audio_gate_contract`: a concrete speaking state drops
the frame and a concrete idle state forwards it. -/
theorem audio_gate_contract_witness :
    (bridgeStep { router := "", items := "" }
        { initBridge with speaking := true }
        (BridgeEvt.twilio (TwilioFrame.media "QUJD")) =
      { initBridge with speaking := true }) ∧
    (bridgeStep { router := "", items := "" } initBridge
        (BridgeEvt.twilio (TwilioFrame.media "QUJD")) =
      { initBridge with upstream := [UpMsg.audioAppend "QUJD"] }) :=
  ⟨(audio_gate_contract { router := "", items := "" }
      { initBridge with speaking := true } "QUJD" none).1 rfl,
   (audio_gate_contract { router := "", items := "" }
      initBridge "QUJD" none).2.1 rfl⟩

/-- Claim C4: a hand-off pushes the new persona's instructions and its
tool set inside one single `session.update` message — `handleHandoff`
emits at most one `session.update`, and that one message carries both
the new agent's instructions and its complete tool set, every tool of
which the dispatcher (`handleToolCall`) resolves; the SDK revision's
`dispatchSessionUpdate` likewise produces exactly one combined message.
Consistency over time: the initial open event establishes that the
tool set installed upstream equals the active agent's tool set, and
every later (non-open) step preserves that equality, so there is no
window in which the model has a tool exposed that the dispatcher
cannot resolve. -/
theorem handoff_single_atomic_update (p : Prompts) (current : String)
    (h : HandoffMsg) :
    ((handleHandoff p current h).2.countP isSessionUpdateB ≤ 1) ∧
    (∀ instr tools, UpMsg.sessionUpdate instr tools ∈ (handleHandoff p current h).2 →
      instr = effectivePrompt p (handleHandoff p current h).1 ∧
      tools = agentTools (handleHandoff p current h).1 ∧
      ∀ td ∈ tools, dispatcherHandles td.name = true) ∧
    (∀ instr tools, dispatchSessionUpdate instr tools =
      [UpMsg.sessionUpdate instr tools]) ∧
    (installedAfter (bridgeRun p [BridgeEvt.openaiOpen]).upstream =
      agentTools (bridgeRun p [BridgeEvt.openaiOpen]).currentAgent) ∧
    (∀ (s : BridgeState) (e : BridgeEvt), isOpenEvt e = false →
      installedAfter s.upstream = agentTools s.currentAgent →
      installedAfter (bridgeStep p s e).upstream =
        agentTools (bridgeStep p s e).currentAgent) := by
  refine ⟨?_, ?_, ?_, ?_, ?_⟩
  · by_cases hi : h.intent == "items"
    · cases hq : h.question with
      | none =>
          simp [handleHandoff, hi, hq, handoffCtxMsgs, List.countP_cons,
            isSessionUpdateB]
      | some t =>
          by_cases ht : t == "" <;>
            simp [handleHandoff, hi, hq, handoffCtxMsgs, ht, List.countP_cons,
              isSessionUpdateB]
    · by_cases hr : h.intent == "router"
      · cases hq : h.question with
        | none =>
            simp [handleHandoff, hi, hr, hq, handoffCtxMsgs, List.countP_cons,
              isSessionUpdateB]
        | some t =>
            by_cases ht : t == "" <;>
              simp [handleHandoff, hi, hr, hq, handoffCtxMsgs, ht,
                List.countP_cons, isSessionUpdateB]
      · simp [handleHandoff, hi, hr]
  · intro instr tools hmem
    have hctx : ∀ instr2 tools2,
        UpMsg.sessionUpdate instr2 tools2 ∉ handoffCtxMsgs h.question := by
      intro instr2 tools2 hc
      cases hq : h.question with
      | none => simp [handoffCtxMsgs, hq] at hc
      | some t =>
          by_cases ht : t == "" <;> simp [handoffCtxMsgs, hq, ht] at hc
    by_cases hi : h.intent == "items"
    · simp only [handleHandoff, hi, if_true] at hmem ⊢
      rcases List.mem_cons.mp hmem with h1 | h1
      · have h2 : instr = jsOrS p.items itemsFallbackPrompt ∧
            tools = [searchItemsTool] := by
          constructor <;> injection h1
        refine ⟨by simp [effectivePrompt, h2.1], by simp [agentTools, h2.2], ?_⟩
        intro td htd
        rw [h2.2] at htd
        simp at htd
        simp [htd, dispatcherHandles, searchItemsTool]
      · exact absurd h1 (hctx instr tools)
    · by_cases hr : h.intent == "router"
      · simp only [handleHandoff, hi, if_false, hr, if_true] at hmem ⊢
        rcases List.mem_cons.mp hmem with h1 | h1
        · have h2 : instr = jsOrS p.router routerFallbackPrompt ∧
              tools = [determineRouteTool] := by
            constructor <;> injection h1
          refine ⟨by simp [effectivePrompt, h2.1], by simp [agentTools, h2.2], ?_⟩
          intro td htd
          rw [h2.2] at htd
          simp at htd
          simp [htd, dispatcherHandles, determineRouteTool]
        · exact absurd h1 (hctx instr tools)
      · simp [handleHandoff, hi, hr] at hmem
  · intro instr tools
    rfl
  · simp [bridgeRun, bridgeStep, initBridge, onOpenMsgs, installedAfter,
      agentTools]
  · intro s e hnotOpen hinv
    cases e with
    | openaiOpen => simp [isOpenEvt] at hnotOpen
    | twilio f =>
        cases f with
        | start sid => simpa [bridgeStep] using hinv
        | media payload =>
            by_cases hs : s.speaking
            · simpa [bridgeStep, hs] using hinv
            · have hstep : bridgeStep p s (BridgeEvt.twilio (TwilioFrame.media payload)) =
                  { s with upstream := s.upstream ++ [UpMsg.audioAppend payload] } := by
                simp [bridgeStep, hs]
              rw [hstep]
              show installedAfter (s.upstream ++ [UpMsg.audioAppend payload]) =
                agentTools s.currentAgent
              rw [installedAfter_append]
              simpa using hinv
        | stop => simpa [bridgeStep] using hinv
        | malformed => simpa [bridgeStep] using hinv
    | openai ev =>
        cases ev with
        | outputAudioDelta d => simpa [bridgeStep] using hinv
        | responseCompleted => simpa [bridgeStep] using hinv
        | responseDone => simpa [bridgeStep] using hinv
        | outputTextDelta ho =>
            cases ho with
            | none => simpa [bridgeStep] using hinv
            | some hh =>
                show installedAfter
                    (s.upstream ++ (handleHandoff p s.currentAgent hh).2) =
                  agentTools (handleHandoff p s.currentAgent hh).1
                rw [installedAfter_append]
                by_cases hi : hh.intent == "items"
                · cases hq : hh.question with
                  | none =>
                      simp [handleHandoff, hi, hq, handoffCtxMsgs, agentTools]
                  | some t =>
                      by_cases ht : t == "" <;>
                        simp [handleHandoff, hi, hq, ht, handoffCtxMsgs,
                          agentTools]
                · by_cases hr : hh.intent == "router"
                  · cases hq : hh.question with
                    | none =>
                        simp [handleHandoff, hi, hr, hq, handoffCtxMsgs,
                          agentTools]
                    | some t =>
                        by_cases ht : t == "" <;>
                          simp [handleHandoff, hi, hr, hq, ht, handoffCtxMsgs,
                            agentTools]
                  · simpa [handleHandoff, hi, hr] using hinv
        | funcArgsDelta name resp =>
            simp only [bridgeStep]
            rw [installedAfter_append]
            by_cases h1 : name == "determine_route"
            · simpa [handleToolCall, h1] using hinv
            · by_cases h2 : name == "search_items"
              · simpa [handleToolCall, h1, h2] using hinv
              · simpa [handleToolCall, h1, h2] using hinv
        | errorEvt => simpa [bridgeStep] using hinv
        | otherEvt => simpa [bridgeStep] using hinv

/-- Witness for `handoff_single_atomic_update`: a concrete items
hand-off emits exactly one combined update whose single tool the
dispatcher resolves, and the consistency invariant is carried through a
concrete hand-off step from the post-open state. -/
theorem handoff_single_atomic_update_witness :
    ((UpMsg.sessionUpdate itemsFallbackPrompt [searchItemsTool] ∈
        (handleHandoff { router := "", items := "" } "router"
          { intent := "items", handoff_from := "router",
            question := some "is the cheese pack kosher" }).2) ∧
      (itemsFallbackPrompt =
        effectivePrompt { router := "", items := "" }
          (handleHandoff { router := "", items := "" } "router"
            { intent := "items", handoff_from := "router",
              question := some "is the cheese pack kosher" }).1 ∧
        [searchItemsTool] =
          agentTools
            (handleHandoff { router := "", items := "" } "router"
              { intent := "items", handoff_from := "router",
                question := some "is the cheese pack kosher" }).1 ∧
        ∀ td ∈ [searchItemsTool], dispatcherHandles td.name = true)) ∧
    installedAfter
        (bridgeStep { router := "", items := "" }
          (bridgeRun { router := "", items := "" } [BridgeEvt.openaiOpen])
          (BridgeEvt.openai (OpenAIEvt.outputTextDelta
            (some { intent := "items", handoff_from := "router",
                    question := some "q" })))).upstream =
      agentTools
        (bridgeStep { router := "", items := "" }
          (bridgeRun { router := "", items := "" } [BridgeEvt.openaiOpen])
          (BridgeEvt.openai (OpenAIEvt.outputTextDelta
            (some { intent := "items", handoff_from := "router",
                    question := some "q" })))).currentAgent := by
  have hmem : UpMsg.sessionUpdate itemsFallbackPrompt [searchItemsTool] ∈
      (handleHandoff { router := "", items := "" } "router"
        { intent := "items", handoff_from := "router",
          question := some "is the cheese pack kosher" }).2 := by decide
  refine ⟨⟨hmem, ?_⟩, ?_⟩
  · exact (handoff_single_atomic_update { router := "", items := "" } "router"
      { intent := "items", handoff_from := "router",
        question := some "is the cheese pack kosher" }).2.1
      itemsFallbackPrompt [searchItemsTool] hmem
  · exact (handoff_single_atomic_update { router := "", items := "" } "router"
      { intent := "items", handoff_from := "router",
        question := some "q" }).2.2.2.2
      (bridgeRun { router := "", items := "" } [BridgeEvt.openaiOpen])
      (BridgeEvt.openai (OpenAIEvt.outputTextDelta
        (some { intent := "items", handoff_from := "router",
                question := some "q" })))
      (by decide) (by decide)

/-! ## The multi-agent hand-off controller of `src/unnamed/part_002`

The SDK-based revision: four `RealtimeAgent`s (router, pickup, items,
sheitel), navigation tools that call `session.updateAgent` and then
schedule a delayed `session.sendMessage` replay of the carried summary,
and the `transfer_to_main_menu` tool with its `source=ivr_rebbi`
branch.  The `setTimeout` callbacks check only `if (session)` — the
session variable, which is assigned before any tool can run and never
reset — before sending. -/

/-- The four agent personas of the multi-agent revision. -/
inductive AgentName where
  | router
  | pickup
  | items
  | sheitel
deriving DecidableEq, Repr

/-- A task scheduled with `setTimeout` by a navigation tool: a delayed
`session.sendMessage` replay, or the delayed `ws.close()` of the
`ivr_rebbi` branch.  The delay in milliseconds is recorded as written
in the source. -/
inductive TimerTask where
  | sendAfter (delayMs : Nat) (text : String)
  | closeAfter (delayMs : Nat)
deriving DecidableEq, Repr

/-- Per-call state of the hand-off controller: the active agent bound
to the session, the scheduled timer tasks in scheduling order, the
messages actually sent into the session by fired timers, and whether
the Twilio socket was closed. -/
structure HandoffState where
  active : AgentName
  timers : List TimerTask
  sent : List String
  wsClosed : Bool
deriving DecidableEq, Repr

/-- Initial state: the session is started on the router agent. -/
def initHandoff : HandoffState :=
  { active := AgentName.router, timers := [], sent := [], wsClosed := false }

/-- Events driving the controller: the model invoking one of the four
navigation tools (with the carried `summary` for the specialists), and
a scheduled timer firing. -/
inductive HandoffEvt where
  | toPickup (summary : String)
  | toItems (summary : String)
  | toSheitel (summary : String)
  | toMainMenu
  | fireNext
deriving DecidableEq, Repr

/-- One step of the hand-off controller, translated from the
`transferToPickup` / `transferToItems` / `transferToSheitel` /
`transferToRouter` tool bodies of `src/unnamed/part_002`: a specialist
transfer updates the agent and, when the summary is truthy, schedules a
2500 ms replay of it; `transfer_to_main_menu` either schedules a 500 ms
socket close (when the call came from `source=ivr_rebbi`) or updates to
the router and schedules a 2000 ms replay of a fixed utterance.  A
firing timer checks only that the session object exists (always true
once the call is set up) and then sends its text; it does not check
which persona is active. -/
def handoffStep (source : String) (s : HandoffState) : HandoffEvt → HandoffState
  | HandoffEvt.toPickup summary =>
      { s with
        active := AgentName.pickup
        timers := s.timers ++
          (if summary == "" then [] else [TimerTask.sendAfter 2500 summary]) }
  | HandoffEvt.toItems summary =>
      { s with
        active := AgentName.items
        timers := s.timers ++
          (if summary == "" then [] else [TimerTask.sendAfter 2500 summary]) }
  | HandoffEvt.toSheitel summary =>
      { s with
        active := AgentName.sheitel
        timers := s.timers ++
          (if summary == "" then [] else [TimerTask.sendAfter 2500 summary]) }
  | HandoffEvt.toMainMenu =>
      if source == "ivr_rebbi" then
        { s with timers := s.timers ++ [TimerTask.closeAfter 500] }
      else
        { s with
          active := AgentName.router
          timers := s.timers ++
            [TimerTask.sendAfter 2000 "I need help with something else."] }
  | HandoffEvt.fireNext =>
      match s.timers with
      | [] => s
      | TimerTask.sendAfter _ text :: rest =>
          { s with timers := rest, sent := s.sent ++ [text] }
      | TimerTask.closeAfter _ :: rest =>
          { s with timers := rest, wsClosed := true }

/-- Run the hand-off controller over a trace of events.  All timers
pending in the traces considered here carry the same delay, so firing
in scheduling order agrees with firing by deadline. -/
def handoffRun (source : String) (tr : List HandoffEvt) : HandoffState :=
  tr.foldl (handoffStep source) initHandoff

/-- The navigation event that transfers to a given specialist with a
carried summary (the router transfer carries none). -/
def transferEvt (a : AgentName) (summary : String) : HandoffEvt :=
  match a with
  | AgentName.pickup => HandoffEvt.toPickup summary
  | AgentName.items => HandoffEvt.toItems summary
  | AgentName.sheitel => HandoffEvt.toSheitel summary
  | AgentName.router => HandoffEvt.toMainMenu

/-- Whether an agent is one of the three specialists. -/
def isSpecialist (a : AgentName) : Bool :=
  match a with
  | AgentName.router => false
  | _ => true

/-- Claim C3, counterexample: hand-off to pickup with a carried
summary, then — before the 2500 ms replay timer fires — hand-off to
items with another summary.  The active persona does end up as items,
but when the two timers fire BOTH replays are sent: the stale pickup
replay is delivered first, into the items persona's context.  It is
not discarded, because the timer callback checks only that the session
object exists, not that it still targets the active persona. -/
theorem stale_replay_not_discarded :
    (handoffRun "direct"
        [HandoffEvt.toPickup "when is pickup in Lakewood",
         HandoffEvt.toItems "is the cheese pack kosher",
         HandoffEvt.fireNext, HandoffEvt.fireNext]).active = AgentName.items ∧
    (handoffRun "direct"
        [HandoffEvt.toPickup "when is pickup in Lakewood",
         HandoffEvt.toItems "is the cheese pack kosher",
         HandoffEvt.fireNext, HandoffEvt.fireNext]).sent =
      ["when is pickup in Lakewood", "is the cheese pack kosher"] ∧
    "when is pickup in Lakewood" ∈
      (handoffRun "direct"
        [HandoffEvt.toPickup "when is pickup in Lakewood",
         HandoffEvt.toItems "is the cheese pack kosher",
         HandoffEvt.fireNext, HandoffEvt.fireNext]).sent := by
  refine ⟨rfl, rfl, ?_⟩
  simp [handoffRun, handoffStep, initHandoff]

/-- Claim C3 (amended): a hand-off to specialist P with carried context
sP followed, before P's replay timer fires, by a hand-off to specialist
Q with carried context sQ leaves the session's active persona as Q;
when the timers fire, both replays are sent in scheduling order — P's
stale replay is delivered first (into Q's context) and then Q's — so
the stale replay is NOT discarded: the timer callback verifies only
that the session object still exists, never which persona is
active. -/
theorem double_handoff_sends_both_replays (P Q : AgentName) (sP sQ : String)
    (hP : isSpecialist P = true) (hQ : isSpecialist Q = true)
    (hsP : sP ≠ "") (hsQ : sQ ≠ "") :
    (handoffRun "direct"
        [transferEvt P sP, transferEvt Q sQ,
         HandoffEvt.fireNext, HandoffEvt.fireNext]).active = Q ∧
    (handoffRun "direct"
        [transferEvt P sP, transferEvt Q sQ,
         HandoffEvt.fireNext, HandoffEvt.fireNext]).sent = [sP, sQ] := by
  have hp : (sP == "") = false := by
    simpa using hsP
  have hq : (sQ == "") = false := by
    simpa using hsQ
  cases P <;> cases Q <;> simp [isSpecialist] at hP hQ <;>
    exact ⟨by simp [handoffRun, handoffStep, transferEvt, initHandoff, hp, hq],
           by simp [handoffRun, handoffStep, transferEvt, initHandoff, hp, hq]⟩

/-- Witness for `double_handoff_sends_both_replays` at concrete
personas and summaries. -/
theorem double_handoff_sends_both_replays_witness :
    (handoffRun "direct"
        [transferEvt AgentName.pickup "when is pickup in Lakewood",
         transferEvt AgentName.items "is the cheese pack kosher",
         HandoffEvt.fireNext, HandoffEvt.fireNext]).active = AgentName.items ∧
    (handoffRun "direct"
        [transferEvt AgentName.pickup "when is pickup in Lakewood",
         transferEvt AgentName.items "is the cheese pack kosher",
         HandoffEvt.fireNext, HandoffEvt.fireNext]).sent =
      ["when is pickup in Lakewood", "is the cheese pack kosher"] :=
  double_handoff_sends_both_replays AgentName.pickup AgentName.items
    "when is pickup in Lakewood" "is the cheese pack kosher"
    rfl rfl (by decide) (by decide)

/-- The `source` query parameter as read at connection time:
`query?.source || 'direct'`. -/
def sourceOfQuery (q : Option String) : String :=
  jsOr q "direct"

/-- An externally visible action of a navigation tool body. -/
inductive NavAction where
  | updAgent (a : AgentName)
  | schedMessage (delayMs : Nat) (text : String)
  | schedClose (delayMs : Nat)
deriving DecidableEq, Repr

/-- The body of the `transfer_to_main_menu` tool of
`src/unnamed/part_002`: when the call arrived with `source=ivr_rebbi`
it only schedules the Twilio WebSocket to close after 500 ms (returning
the caller to the IVR menu and ending the session) and never touches
the active agent; otherwise it updates the session to the router agent
and schedules the fixed re-entry utterance after 2000 ms. -/
def transferToMainMenuExec (source : String) : List NavAction :=
  if source == "ivr_rebbi" then
    [NavAction.schedClose 500]
  else
    [NavAction.updAgent AgentName.router,
     NavAction.schedMessage 2000 "I need help with something else."]

/-- Claim C10: when the WebSocket URL carried `source=ivr_rebbi`, the
`transfer_to_main_menu` capability performs no agent update at all — in
particular it never switches back to the router — and its only action
is scheduling the telephony WebSocket to close after the fixed 500 ms
delay, which ends the session. -/
theorem ivr_rebbi_closes_instead_of_router (q : Option String)
    (h : sourceOfQuery q = "ivr_rebbi") :
    transferToMainMenuExec (sourceOfQuery q) = [NavAction.schedClose 500] ∧
      ∀ a : AgentName,
        NavAction.updAgent a ∉ transferToMainMenuExec (sourceOfQuery q) := by
  rw [h]
  constructor
  · rfl
  · intro a
    simp [transferToMainMenuExec]

/-- Witness for `ivr_rebbi_closes_instead_of_router` at the concrete
query parameter. -/
theorem ivr_rebbi_closes_instead_of_router_witness :
    transferToMainMenuExec (sourceOfQuery (some "ivr_rebbi")) =
        [NavAction.schedClose 500] ∧
      ∀ a : AgentName,
        NavAction.updAgent a ∉
          transferToMainMenuExec (sourceOfQuery (some "ivr_rebbi")) :=
  ivr_rebbi_closes_instead_of_router (some "ivr_rebbi") rfl

/-! ## Location normalization and pickup lookup of `src/unnamed/part_002`

`normalizeLocation`, `getPickupTimes`, `formatSpokenDate`,
`formatTime24To12` and the `get_pickup_times` tool body. -/

/-- Split a character list on a separator character, with the
semantics of `String.split` on a one-character separator: the empty
input yields one empty group. -/
def splitOnChar (sep : Char) : List Char → List (List Char)
  | [] => [[]]
  | c :: rest =>
      let r := splitOnChar sep rest
      if c == sep then [] :: r
      else
        match r with
        | [] => [[c]]
        | g :: gs => (c :: g) :: gs

/-- Split a string on a one-character separator. -/
def splitStr (sep : Char) (s : String) : List String :=
  (splitOnChar sep s.data).map String.mk

/-- Digits-only numeric parse of a character list. -/
def toNatAux (cs : List Char) (acc : Nat) : Option Nat :=
  match cs with
  | [] => some acc
  | c :: rest =>
      if c.isDigit then toNatAux rest (acc * 10 + (c.toNat - 48))
      else none

/-- Digits-only numeric parse of a string (empty input fails). -/
def strToNat (s : String) : Option Nat :=
  match s.data with
  | [] => none
  | _ => toNatAux s.data 0

/-- JavaScript-style whitespace, as far as `trim` is concerned here. -/
def isWhite (c : Char) : Bool :=
  c == ' ' || c == '\t' || c == '\n' || c == '\r'

/-- The `.toLowerCase().trim()` chain applied to the caller's location
input. -/
def jsLowerTrim (s : String) : String :=
  let lowered := s.data.map Char.toLower
  String.mk (((lowered.dropWhile isWhite).reverse.dropWhile isWhite).reverse)

/-- The value a synonym-table entry maps to: a canonical `region`
and/or `city` field. -/
structure SynEntry where
  region : Option String
  city : Option String
deriving DecidableEq, Repr

/-- The `LOCATION_SYNONYMS` table of `src/unnamed/part_002`. -/
def locationSynonyms : List (String × SynEntry) :=
  [("boro park", { region := some "Brooklyn", city := none }),
   ("boropark", { region := some "Brooklyn", city := none }),
   ("flatbush", { region := some "Brooklyn", city := none }),
   ("brooklyn", { region := some "Brooklyn", city := none }),
   ("lakewood", { region := some "Lakewood", city := none }),
   ("monsey", { region := some "Monsey", city := none }),
   ("five towns", { region := some "Five Towns", city := none })]

/-- Table lookup by exact key. -/
def lookupSynonym (key : String) : Option SynEntry :=
  (locationSynonyms.find? (fun kv => kv.1 == key)).map (fun kv => kv.2)

/-- The normalized location object `normalizeLocation` returns: a
`region` and/or `city` field (this revision only ever populates
`region`). -/
structure NormLoc where
  region : Option String
  city : Option String
deriving DecidableEq, Repr

/-- `normalizeLocation` of `src/unnamed/part_002`: a falsy input yields
the empty object; otherwise the lower-cased, trimmed input is looked up
in the synonym table — a truthy mapped `region` (or, failing that, a
truthy mapped `city`) becomes the region; with no match the raw input
itself becomes the region. -/
def normalizeLocation (raw : String) : NormLoc :=
  if raw == "" then { region := none, city := none }
  else
    let key := jsLowerTrim raw
    let mapped := lookupSynonym key
    match mapped with
    | some e =>
        if jsTruthyOpt e.region then { region := e.region, city := none }
        else if jsTruthyOpt e.city then { region := e.city, city := none }
        else { region := some raw, city := none }
    | none => { region := some raw, city := none }

/-- `URLSearchParams.set`: replace the value under the key if present,
otherwise append the pair. -/
def setParam (ps : List (String × String)) (k v : String) :
    List (String × String) :=
  if ps.any (fun kv => kv.1 == k) then
    ps.map (fun kv => if kv.1 == k then (k, v) else kv)
  else ps ++ [(k, v)]

/-- JavaScript string coercion of a possibly undefined value, as
`URLSearchParams.set` applies it. -/
def undefStr (o : Option String) : String :=
  match o with
  | some s => s
  | none => "undefined"

/-- The query parameters `getPickupTimes` builds for the backing
pickup-times API: the location input is `city || region`, normalized
first; a truthy normalized `region` is set as the `region` parameter,
and (dead in this revision, since `normalizeLocation` never populates
`city`) a truthy normalized `city` would overwrite the `region`
parameter with the coerced `norm.region`. -/
def pickupQueryParams (region city : Option String) :
    List (String × String) :=
  let raw := jsOr city (jsOr region "")
  let norm := normalizeLocation raw
  let p1 :=
    if jsTruthyOpt norm.region then
      setParam [] "region" (undefStr norm.region)
    else []
  if jsTruthyOpt norm.city then setParam p1 "region" (undefStr norm.region)
  else p1

/-- Month names as rendered by `toLocaleDateString` with the `long`
month option. -/
def monthName (m : Nat) : String :=
  ["January", "February", "March", "April", "May", "June", "July",
   "August", "September", "October", "November", "December"].getD (m - 1) ""

/-- Weekday names as rendered by `toLocaleDateString` with the `long`
weekday option, indexed with 0 = Sunday. -/
def dayName (w : Nat) : String :=
  ["Sunday", "Monday", "Tuesday", "Wednesday", "Thursday", "Friday",
   "Saturday"].getD w ""

/-- Days in a month of the proleptic Gregorian calendar. -/
def daysInMonth (y m : Nat) : Nat :=
  if m == 2 then
    if (y % 4 == 0 && y % 100 != 0) || y % 400 == 0 then 29 else 28
  else if m == 4 || m == 6 || m == 9 || m == 11 then 30
  else 31

/-- Day of week (0 = Sunday) of a Gregorian date, by the standard
congruence computation. -/
def dayOfWeek (y m d : Nat) : Nat :=
  let t := [0, 3, 2, 5, 0, 3, 5, 1, 4, 6, 2, 4]
  let y2 := if m < 3 then y - 1 else y
  (y2 + y2 / 4 + y2 / 400 + t.getD (m - 1) 0 + d - y2 / 100) % 7

/-- Parse of a `YYYY-MM-DD` string as the JavaScript `Date`
constructor validates a date-only ISO form: three dash-separated
numeric fields with the month and day in range. -/
def parseDateISO (s : String) : Option (Nat × Nat × Nat) :=
  match splitStr '-' s with
  | [ys, ms, ds] =>
      match strToNat ys, strToNat ms, strToNat ds with
      | some y, some m, some d =>
          if 1 ≤ m && m ≤ 12 && 1 ≤ d && d ≤ daysInMonth y m then
            some (y, m, d)
          else none
      | _, _, _ => none
  | _ => none

/-- `formatSpokenDate` of `src/unnamed/part_002`: a falsy input yields
the empty string; a valid `YYYY-MM-DD` input (parsed at noon to avoid
timezone skew) is rendered as long weekday, long month and day number;
an unparseable input renders as the Invalid Date string. -/
def formatSpokenDate (isoDate : String) : String :=
  if isoDate == "" then ""
  else
    match parseDateISO isoDate with
    | some (y, m, d) =>
        dayName (dayOfWeek y m d) ++ ", " ++ monthName m ++ " " ++ toString d
    | none => "Invalid Date"

/-- Two-digit rendering of a minute value. -/
def pad2 (n : Nat) : String :=
  if n < 10 then "0" ++ toString n else toString n

/-- Parse of an `HH:MM[:SS]` string as `formatTime24To12` destructures
it: the first two colon-separated fields as numbers. -/
def parseTimeHM (s : String) : Option (Nat × Nat) :=
  match splitStr ':' s with
  | hs :: ms :: _ =>
      match strToNat hs, strToNat ms with
      | some h, some m => some (h, m)
      | _, _ => none
  | _ => none

/-- `formatTime24To12` of `src/unnamed/part_002`: a falsy input yields
the empty string; otherwise the hour and minute are set on a `Date`
(rolling over out-of-range values) and rendered as numeric 12-hour
time with a two-digit minute and AM/PM; non-numeric fields render the
Invalid Date string. -/
def formatTime24To12 (t : Option String) : String :=
  match t with
  | none => ""
  | some s =>
      if s == "" then ""
      else
        match parseTimeHM s with
        | some (h, m) =>
            let h24 := h % 24
            let m60 := m % 60
            toString (if h24 % 12 == 0 then 12 else h24 % 12) ++ ":" ++
              pad2 m60 ++ " " ++ (if h24 < 12 then "AM" else "PM")
        | none => "Invalid Date"

/-- One row of the pickup-times API response. -/
structure PickupRow where
  region : Option String
  city : Option String
  event_date : Option String
  date : Option String
  start_time : Option String
  end_time : Option String
  full_address : Option String
  location_name : Option String
  address_line1 : Option String
  address_line2 : Option String
  state : Option String
  postal_code : Option String
  is_tbd : Bool
deriving DecidableEq, Repr

/-- Outcome of the `fetch` of the pickup-times API: a response whose
JSON body may carry a `results` array, a non-2xx HTTP status, or a
network-level failure (including timeout). -/
inductive FetchOutcome where
  | ok (results : Option (List PickupRow))
  | httpError (status : Nat)
  | netError
deriving DecidableEq, Repr

/-- Whether the fetch failed (non-2xx status or network error). -/
def FetchOutcome.failed : FetchOutcome → Bool
  | FetchOutcome.ok _ => false
  | FetchOutcome.httpError _ => true
  | FetchOutcome.netError => true

/-- `getPickupTimes` of `src/unnamed/part_002` (response handling): a
non-ok response raises (`throw new Error`), a network failure
propagates, and an ok response yields `json.results || []`. -/
def getPickupTimesE (f : FetchOutcome) : Except String (List PickupRow) :=
  match f with
  | FetchOutcome.ok results => Except.ok (results.getD [])
  | FetchOutcome.httpError status =>
      Except.error ("Pickup API error " ++ toString status)
  | FetchOutcome.netError => Except.error "fetch failed"

/-- Result object returned by the `get_pickup_times` tool body. -/
structure PickupToolResult where
  spoken_text : SpeakCall
  has_results : Bool
  results : List PickupRow
deriving DecidableEq, Repr

/-- The join of the address parts used when `full_address` is falsy:
keep the truthy parts and comma-join them. -/
def joinAddressParts (first : PickupRow) : String :=
  String.intercalate ", "
    (([first.location_name, first.address_line1, first.address_line2,
       first.city, first.state, first.postal_code].map
        (fun o => o.getD "")).filter (fun s => s != ""))

/-- The on-success portion of the `get_pickup_times` tool body of
`src/unnamed/part_002`: no rows yields the `pickup_not_found`
invocation; a first row flagged `is_tbd` yields the `pickup_tbd`
invocation with only the city label; otherwise the `pickup_success`
invocation carries the city label, the spoken date, the spoken time
window (empty unless both endpoint renderings are truthy) and the
address. -/
def pickupRespond (results : List PickupRow) (city region : Option String) :
    PickupToolResult :=
  match results with
  | [] =>
      { spoken_text :=
          { key := "pickup_not_found"
            params := [("city", city.getD ""), ("region", region.getD "")] }
        has_results := false
        results := [] }
  | first :: _ =>
      let cityLabel :=
        jsOr first.region (jsOr first.city (jsOr city (jsOr region "your location")))
      if first.is_tbd then
        { spoken_text :=
            { key := "pickup_tbd", params := [("city", cityLabel)] }
          has_results := false
          results := results }
      else
        let rawDate := jsOr first.event_date (jsOr first.date "")
        let dateSpoken := formatSpokenDate rawDate
        let startSpoken := formatTime24To12 first.start_time
        let endSpoken := formatTime24To12 first.end_time
        let timeWindowSpoken :=
          if startSpoken != "" && endSpoken != "" then
            startSpoken ++ " to " ++ endSpoken
          else ""
        let address := jsOr first.full_address (joinAddressParts first)
        { spoken_text :=
            { key := "pickup_success"
              params := [("city", cityLabel), ("date_spoken", dateSpoken),
                         ("time_window", timeWindowSpoken),
                         ("address", address)] }
          has_results := true
          results := results }

/-- The fallback result built in the catch-all of the tool body. -/
def pickupFallbackResult : PickupToolResult :=
  { spoken_text := { key := "fallback_error", params := [] }
    has_results := false
    results := [] }

/-- The body of the `get_pickup_times` tool of `src/unnamed/part_002`
inside its `try`: fetch, then respond. -/
def pickupExecuteBody (f : FetchOutcome) (city region : Option String) :
    Except String PickupToolResult :=
  match getPickupTimesE f with
  | Except.ok results => Except.ok (pickupRespond results city region)
  | Except.error e => Except.error e

/-- The full `get_pickup_times` tool body: the `catch` maps any raised
error to the `fallback_error` spoken outcome instead of letting it
escape, so the call always returns normally. -/
def pickupExecute (f : FetchOutcome) (city region : Option String) :
    Except String PickupToolResult :=
  match pickupExecuteBody f city region with
  | Except.ok r => Except.ok r
  | Except.error _ => Except.ok pickupFallbackResult

/-- Whether an `Except` result returned normally. -/
def isOkE {α : Type} (e : Except String α) : Bool :=
  match e with
  | Except.ok _ => true
  | Except.error _ => false

/-- An appended string is nonempty when its left part is. -/
theorem append_ne_empty_left (a b : String) (h : a ≠ "") : a ++ b ≠ "" := by
  intro hc
  have hd := congrArg String.data hc
  rw [String.data_append] at hd
  exact h (String.ext ((List.append_eq_nil.mp hd).1))

/-- An appended string is nonempty when its right part is. -/
theorem append_ne_empty_right (a b : String) (h : b ≠ "") : a ++ b ≠ "" := by
  intro hc
  have hd := congrArg String.data hc
  rw [String.data_append] at hd
  exact h (String.ext ((List.append_eq_nil.mp hd).2))

/-- Whether a date string is truthy and parses as a valid ISO date. -/
def dateOk (s : String) : Bool :=
  s != "" && (parseDateISO s).isSome

/-- Whether a time field is truthy and its hour and minute parse. -/
def timeOk (t : Option String) : Bool :=
  match t with
  | none => false
  | some s => s != "" && (parseTimeHM s).isSome

/-- A date passing `dateOk` renders to a nonempty spoken date. -/
theorem formatSpokenDate_ne_empty (s : String) (h : dateOk s = true) :
    formatSpokenDate s ≠ "" := by
  unfold dateOk at h
  rw [Bool.and_eq_true] at h
  obtain ⟨h1, h2⟩ := h
  have hne : (s == "") = false := by
    cases he : s == "" with
    | false => rfl
    | true => rw [bne, he] at h1; simp at h1
  cases hp : parseDateISO s with
  | none => rw [hp] at h2; simp at h2
  | some ymd =>
      obtain ⟨y, m, d⟩ := ymd
      simp only [formatSpokenDate, hne, Bool.false_eq_true, if_false, hp]
      exact append_ne_empty_left _ _
        (append_ne_empty_right _ _ (by decide))

/-- A time field passing `timeOk` renders to a nonempty spoken time. -/
theorem formatTime24To12_ne_empty (t : Option String) (h : timeOk t = true) :
    formatTime24To12 t ≠ "" := by
  cases t with
  | none => simp [timeOk] at h
  | some s =>
      unfold timeOk at h
      rw [Bool.and_eq_true] at h
      obtain ⟨h1, h2⟩ := h
      have hne : (s == "") = false := by
        cases he : s == "" with
        | false => rfl
        | true => rw [bne, he] at h1; simp at h1
      cases hp : parseTimeHM s with
      | none => rw [hp] at h2; simp at h2
      | some hm =>
          obtain ⟨hh, mm⟩ := hm
          simp only [formatTime24To12, hne, Bool.false_eq_true, if_false, hp]
          exact append_ne_empty_left _ _
            (append_ne_empty_right _ _ (by decide))

/-- Claim C5: when the backing pickup lookup fails — a network error
(including timeout) or a non-2xx HTTP status — the raised error is
caught and mapped to the fallback spoken outcome: the returned result
carries the `fallback_error` spoken text and `has_results = false`;
moreover for every fetch outcome whatsoever the tool body returns
normally, so the failure never escapes as a crash of the call
session. -/
theorem lookup_failure_maps_to_fallback (f : FetchOutcome)
    (city region : Option String) (hf : f.failed = true) :
    pickupExecute f city region = Except.ok pickupFallbackResult ∧
      (pickupExecute f city region = Except.ok pickupFallbackResult →
        (pickupExecute f city region).isOk = true) ∧
      ∀ (g : FetchOutcome) (c r : Option String),
        isOkE (pickupExecute g c r) = true := by
  refine ⟨?_, fun h => by rw [h]; rfl, ?_⟩
  · cases f with
    | ok results => simp [FetchOutcome.failed] at hf
    | httpError status => rfl
    | netError => rfl
  · intro g c r
    cases g with
    | ok results => rfl
    | httpError status => rfl
    | netError => rfl

/-- Witness for `lookup_failure_maps_to_fallback` at a concrete HTTP
500 failure. -/
theorem lookup_failure_maps_to_fallback_witness :
    pickupExecute (FetchOutcome.httpError 500) (some "Lakewood") none =
      Except.ok pickupFallbackResult :=
  (lookup_failure_maps_to_fallback (FetchOutcome.httpError 500)
    (some "Lakewood") none rfl).1

/-- Claim C6: zero matching rows yield the `pickup_not_found` spoken
outcome whose parameters carry no date, time-window or address field
at all; a first row flagged to-be-determined yields the `pickup_tbd`
outcome with no time-window parameter; and a resolved first row — one
that is not TBD, with a parseable event date, parseable start and end
times and a truthy full address — yields the `pickup_success` outcome
in which the date, time-window and address parameters are all
nonempty. -/
theorem pickup_outcome_categories (city region : Option String)
    (tbdRow okRow : PickupRow) (tbdRest okRest : List PickupRow)
    (h1 : tbdRow.is_tbd = true)
    (h2 : okRow.is_tbd = false)
    (h3 : dateOk (jsOr okRow.event_date (jsOr okRow.date "")) = true)
    (h4 : timeOk okRow.start_time = true)
    (h5 : timeOk okRow.end_time = true)
    (h6 : jsTruthyOpt okRow.full_address = true) :
    ((pickupRespond [] city region).spoken_text.key = "pickup_not_found" ∧
      hasParam (pickupRespond [] city region).spoken_text.params "date_spoken"
        = false ∧
      hasParam (pickupRespond [] city region).spoken_text.params "time_window"
        = false ∧
      hasParam (pickupRespond [] city region).spoken_text.params "address"
        = false ∧
      (pickupRespond [] city region).has_results = false) ∧
    ((pickupRespond (tbdRow :: tbdRest) city region).spoken_text.key =
        "pickup_tbd" ∧
      hasParam (pickupRespond (tbdRow :: tbdRest) city region).spoken_text.params
        "time_window" = false ∧
      (pickupRespond (tbdRow :: tbdRest) city region).has_results = false) ∧
    ((pickupRespond (okRow :: okRest) city region).spoken_text.key =
        "pickup_success" ∧
      getParam (pickupRespond (okRow :: okRest) city region).spoken_text.params
        "date_spoken" ≠ "" ∧
      getParam (pickupRespond (okRow :: okRest) city region).spoken_text.params
        "time_window" ≠ "" ∧
      getParam (pickupRespond (okRow :: okRest) city region).spoken_text.params
        "address" ≠ "") := by
  refine ⟨⟨rfl, rfl, rfl, rfl, rfl⟩, ?_, ?_⟩
  · rw [show pickupRespond (tbdRow :: tbdRest) city region =
        { spoken_text :=
            { key := "pickup_tbd"
              params := [("city",
                jsOr tbdRow.region (jsOr tbdRow.city
                  (jsOr city (jsOr region "your location"))))] }
          has_results := false
          results := tbdRow :: tbdRest } from by
      simp [pickupRespond, h1]]
    exact ⟨rfl, rfl, rfl⟩
  · have hstart := formatTime24To12_ne_empty okRow.start_time h4
    have hend := formatTime24To12_ne_empty okRow.end_time h5
    have hdate := formatSpokenDate_ne_empty _ h3
    have hsb : (formatTime24To12 okRow.start_time != "") = true := by
      simp [hstart]
    have heb : (formatTime24To12 okRow.end_time != "") = true := by
      simp [hend]
    rw [show pickupRespond (okRow :: okRest) city region =
        { spoken_text :=
            { key := "pickup_success"
              params := [("city",
                  jsOr okRow.region (jsOr okRow.city
                    (jsOr city (jsOr region "your location")))),
                ("date_spoken",
                  formatSpokenDate (jsOr okRow.event_date (jsOr okRow.date ""))),
                ("time_window",
                  formatTime24To12 okRow.start_time ++ " to " ++
                    formatTime24To12 okRow.end_time),
                ("address", jsOr okRow.full_address (joinAddressParts okRow))] }
          has_results := true
          results := okRow :: okRest } from by
      simp [pickupRespond, h2, hsb, heb]]
    refine ⟨rfl, ?_, ?_, ?_⟩
    · simpa [getParam] using hdate
    · have : formatTime24To12 okRow.start_time ++ " to " ++
          formatTime24To12 okRow.end_time ≠ "" :=
        append_ne_empty_right _ _ hend
      simpa [getParam] using this
    · have haddr : jsOr okRow.full_address (joinAddressParts okRow) ≠ "" := by
        cases hfa : okRow.full_address with
        | none => simp [jsTruthyOpt, hfa] at h6
        | some s =>
            have hs : (s == "") = false := by
              simpa [jsTruthyOpt, hfa] using h6
            simp [jsOr, hs]
            intro hcontra
            rw [hcontra] at hs
            simp at hs
      simpa [getParam] using haddr

/-- Witness for `pickup_outcome_categories` at concrete rows: a TBD row
for Brooklyn and a resolved Lakewood row with full schedule data. -/
theorem pickup_outcome_categories_witness :
    getParam (pickupRespond
        [{ region := some "Lakewood", city := some "Lakewood",
           event_date := some "2025-09-14", date := none,
           start_time := some "12:30:00", end_time := some "15:00:00",
           full_address := some "123 Main St, Lakewood, NJ",
           location_name := none, address_line1 := none,
           address_line2 := none, state := none, postal_code := none,
           is_tbd := false }] (some "Lakewood") none).spoken_text.params
      "date_spoken" ≠ "" :=
  (pickup_outcome_categories (some "Lakewood") none
    { region := some "Brooklyn", city := some "Brooklyn",
      event_date := none, date := none, start_time := none,
      end_time := none, full_address := none, location_name := none,
      address_line1 := none, address_line2 := none, state := none,
      postal_code := none, is_tbd := true }
    { region := some "Lakewood", city := some "Lakewood",
      event_date := some "2025-09-14", date := none,
      start_time := some "12:30:00", end_time := some "15:00:00",
      full_address := some "123 Main St, Lakewood, NJ",
      location_name := none, address_line1 := none, address_line2 := none,
      state := none, postal_code := none, is_tbd := false }
    [] [] rfl rfl (by decide) (by decide) (by decide) (by decide)).2.2.2.1

/-- Claim C8, counterexample: the empty-string location input matches
no synonym entry, yet it is NOT passed through to the backing query —
the falsy-input guard of `normalizeLocation` returns the empty object
and no `region` parameter is set at all. -/
theorem empty_location_not_passed_through :
    lookupSynonym (jsLowerTrim "") = none ∧
      normalizeLocation "" = { region := none, city := none } ∧
      pickupQueryParams none (some "") = [] := by
  refine ⟨by decide, rfl, rfl⟩

/-- Claim C8 (amended): the caller's location input (`city || region`)
is first normalized through the synonym table — for example the alias
`flatbush` maps to the canonical region `Brooklyn` — and every
NON-EMPTY input matching no synonym entry is passed through to the
backing query unchanged as the `region` parameter; an empty or absent
input short-circuits the normalizer and no location parameter is sent
at all. -/
theorem location_normalization_passthrough (region city : Option String)
    (hraw : jsOr city (jsOr region "") ≠ "")
    (hnone : lookupSynonym (jsLowerTrim (jsOr city (jsOr region ""))) = none) :
    pickupQueryParams region city =
        [("region", jsOr city (jsOr region ""))] ∧
      normalizeLocation "flatbush" =
        { region := some "Brooklyn", city := none } ∧
      pickupQueryParams none (some "flatbush") = [("region", "Brooklyn")] := by
  refine ⟨?_, by decide, by decide⟩
  have hne : (jsOr city (jsOr region "") == "") = false := by
    cases he : jsOr city (jsOr region "") == "" with
    | false => rfl
    | true => exact absurd (by simpa using he) hraw
  have hnorm : normalizeLocation (jsOr city (jsOr region "")) =
      { region := some (jsOr city (jsOr region "")), city := none } := by
    simp [normalizeLocation, hne, hnone]
  have htr : jsTruthyOpt (some (jsOr city (jsOr region ""))) = true := by
    simpa [jsTruthyOpt] using hne
  simp [pickupQueryParams, hnorm, htr, jsTruthyOpt, setParam, undefStr, hraw]

/-- Witness for `location_normalization_passthrough` at a location
absent from the synonym table. -/
theorem location_normalization_passthrough_witness :
    pickupQueryParams none (some "Teaneck") = [("region", "Teaneck")] :=
  (location_normalization_passthrough none (some "Teaneck")
    (by decide) (by decide)).1

/-! ## Item lookup of `src/unnamed/part_002`

`getItemRecords` and the `get_item_info` tool body, with the ambiguous
multi-match enumeration. -/

/-- Whether the pattern is a prefix of the text, character-wise. -/
def charsStartWith : List Char → List Char → Bool
  | [], _ => true
  | _ :: _, [] => false
  | p :: ps, t :: ts => p == t && charsStartWith ps ts

/-- Whether the pattern occurs contiguously somewhere in the text. -/
def charsContain : List Char → List Char → Bool
  | [], pat => pat.isEmpty
  | t :: ts, pat => charsStartWith pat (t :: ts) || charsContain ts pat

/-- Case-insensitive substring test: the semantics of a SQL
`ilike '%needle%'` filter as issued by `getItemRecords`. -/
def strContainsCI (hay needle : String) : Bool :=
  charsContain (hay.data.map Char.toLower) (needle.data.map Char.toLower)

/-- The `.trim()` of the item query. -/
def strTrim (s : String) : String :=
  String.mk (((s.data.dropWhile isWhite).reverse.dropWhile isWhite).reverse)

/-- One row of the `cl_items_kashrus` catalog. -/
structure ItemRow where
  item : Option String
  hechsher : Option String
  description : Option String
  aka_name : Option String
deriving DecidableEq, Repr

/-- The `.or` filter of `getItemRecords`: the trimmed query matches by
`ilike` against the item name or the description. -/
def itemMatches (search : String) (row : ItemRow) : Bool :=
  strContainsCI (row.item.getD "") search ||
    strContainsCI (row.description.getD "") search

/-- `getItemRecords` of `src/unnamed/part_002`: a falsy or
whitespace-only query returns no rows; otherwise the catalog rows
matching the trimmed query, capped by `.limit(5)` at the first five
matches. -/
def getItemRecords (db : List ItemRow) (itemQuery : String) : List ItemRow :=
  if strTrim itemQuery == "" then []
  else (db.filter (itemMatches (strTrim itemQuery))).take 5

/-- `items.map((it) => it.item).filter(Boolean)`: the truthy item names
of the matched rows. -/
def truthyNames (items : List ItemRow) : List String :=
  (items.map (fun it => it.item)).filterMap
    (fun o =>
      match o with
      | some s => if s == "" then none else some s
      | none => none)

/-- The candidate enumeration of the ambiguous branch of
`get_item_info`: one name stands alone, two names are joined with
`and`, three or more are comma-joined with an oxford `, and` before
the last. -/
def oxfordNames (names : List String) : String :=
  if names.length == 1 then names.headD ""
  else if names.length == 2 then
    names.headD "" ++ " and " ++ names.getD 1 ""
  else
    String.intercalate ", " names.dropLast ++ ", and " ++
      (match names.getLast? with
       | some l => l
       | none => "undefined")

/-- The `focus` enum of the `get_item_info` parameters. -/
inductive Focus where
  | kashrus
  | description
  | both
deriving DecidableEq, Repr

/-- Result object returned by the `get_item_info` tool body. -/
structure ItemToolResult where
  spoken_text : SpeakCall
  has_results : Bool
  results : List ItemRow
deriving DecidableEq, Repr

/-- Placeholder for the unreachable `items[0]` of an empty list. -/
def defaultItemRow : ItemRow :=
  { item := none, hechsher := none, description := none, aka_name := none }

/-- The body of the `get_item_info` tool of `src/unnamed/part_002`: no
matches yield `item_not_found`; more than one match yields
`item_ambiguous` with the oxford-joined truthy names as the `options`
parameter; exactly one match yields the focus-selected template with
the item fields (each defaulted when falsy). -/
def itemInfoExecute (db : List ItemRow) (item_query : String) (focus : Focus) :
    ItemToolResult :=
  let items := getItemRecords db item_query
  if items.length == 0 then
    { spoken_text := { key := "item_not_found", params := [] }
      has_results := false
      results := [] }
  else if 1 < items.length then
    { spoken_text :=
        { key := "item_ambiguous"
          params := [("options", oxfordNames (truthyNames items))] }
      has_results := false
      results := items }
  else
    let item := items.headD defaultItemRow
    let key :=
      match focus with
      | Focus.kashrus => "item_kashrus_only"
      | Focus.description => "item_description_only"
      | Focus.both => "item_full"
    { spoken_text :=
        { key := key
          params := [("item", jsOr item.item item_query),
                     ("hechsher", jsOr item.hechsher "not specified"),
                     ("description",
                       jsOr item.description "no description available")] }
      has_results := true
      results := [item] }

/-- Claim C7: every item lookup matching more than one row answers with
the `item_ambiguous` outcome whose `options` parameter is the
oxford-joined enumeration of all candidate names; concretely, two
candidates named Cheese Pack and Salmon enumerate as
`Cheese Pack and Salmon`, and three candidates A, B, C enumerate as
`A, B, and C`. -/
theorem ambiguous_enumeration_oxford (db : List ItemRow) (q : String)
    (focus : Focus) (h : 2 ≤ (getItemRecords db q).length) :
    (itemInfoExecute db q focus).spoken_text =
        { key := "item_ambiguous"
          params :=
            [("options", oxfordNames (truthyNames (getItemRecords db q)))] } ∧
      oxfordNames ["Cheese Pack", "Salmon"] = "Cheese Pack and Salmon" ∧
      oxfordNames ["A", "B", "C"] = "A, B, and C" := by
  refine ⟨?_, by decide, by decide⟩
  unfold itemInfoExecute
  have h0 : ((getItemRecords db q).length == 0) = false := by
    have : (getItemRecords db q).length ≠ 0 := by omega
    simpa using this
  have h1 : 1 < (getItemRecords db q).length := by omega
  simp [h0, h1]

/-- Witness for `ambiguous_enumeration_oxford` on a concrete two-row
catalog both of whose rows match the query. -/
theorem ambiguous_enumeration_oxford_witness :
    (itemInfoExecute
        [{ item := some "Cheese Pack", hechsher := some "CRC",
           description := some "a pack of cheese", aka_name := none },
         { item := some "Salmon", hechsher := some "CRC",
           description := some "a fish", aka_name := none }]
        "a" Focus.both).spoken_text =
      { key := "item_ambiguous"
        params :=
          [("options",
            oxfordNames (truthyNames (getItemRecords
              [{ item := some "Cheese Pack", hechsher := some "CRC",
                 description := some "a pack of cheese", aka_name := none },
               { item := some "Salmon", hechsher := some "CRC",
                 description := some "a fish", aka_name := none }]
              "a")))] } :=
  (ambiguous_enumeration_oxford
    [{ item := some "Cheese Pack", hechsher := some "CRC",
       description := some "a pack of cheese", aka_name := none },
     { item := some "Salmon", hechsher := some "CRC",
       description := some "a fish", aka_name := none }]
    "a" Focus.both (by decide)).1

/-- Claim C9: the catalog query of `getItemRecords` is capped at 5
rows, so however many catalog rows match, the tool never works with
more than 5 candidates: the matched row list, the truthy name list
enumerated by the ambiguous outcome, and the result list returned to
the model all have at most 5 entries. -/
theorem item_lookup_capped_at_five (db : List ItemRow) (q : String)
    (focus : Focus) :
    (getItemRecords db q).length ≤ 5 ∧
      (truthyNames (getItemRecords db q)).length ≤ 5 ∧
      (itemInfoExecute db q focus).results.length ≤ 5 := by
  have hlen : (getItemRecords db q).length ≤ 5 := by
    unfold getItemRecords
    by_cases ht : (strTrim q == "") = true
    · simp [ht]
    · rw [if_neg ht, List.length_take]
      omega
  have hnames : (truthyNames (getItemRecords db q)).length ≤ 5 := by
    refine le_trans ?_ hlen
    have h1 := List.length_filterMap_le
      (fun o : Option String =>
        match o with
        | some s => if s == "" then none else some s
        | none => none)
      ((getItemRecords db q).map (fun it => it.item))
    calc (truthyNames (getItemRecords db q)).length
        ≤ ((getItemRecords db q).map (fun it => it.item)).length := h1
      _ = (getItemRecords db q).length := by rw [List.length_map]
  refine ⟨hlen, hnames, ?_⟩
  unfold itemInfoExecute
  by_cases h0 : ((getItemRecords db q).length == 0) = true
  · simp [h0]
  · by_cases h1 : 1 < (getItemRecords db q).length
    · simp [h0, h1, hlen]
    · simp [h0, h1]
